import Mathlib

/-!
Verification development for the QRL command-line wallet (`qrl/cli.py`).

The definitions below are a shallow embedding of the functions of `qrl/cli.py`:
Python strings are modelled as `List Char`, Python integers as `ℤ` (or `ℕ` where
the source value is a protobuf unsigned field), remote gRPC calls as explicit
oracle functions passed in as parameters, and console output / early returns as
explicit outcome values. Each definition carries a comment naming the source
lines it transcribes.
-/

namespace QrlCli

/-- Failure of a remote gRPC call: timeout, connection failure, or any other
exception raised by the stub. -/
inductive RpcError
  | timeout
  | connectionError
  | other (msg : String)
deriving DecidableEq

/-! ### Python string primitives

`cli.py` normalizes user seed input with `seed.lower().strip()` and splits
mnemonics with `seed.split()`. These are modelled on `List Char`. -/

/-- Python `str.lower()` restricted to ASCII letters (the seed and mnemonic
alphabets are ASCII): maps `A`-`Z` (65-90) to `a`-`z`, leaves other characters
unchanged. -/
def pyLower (l : List Char) : List Char :=
  l.map fun c => if 65 ≤ c.toNat ∧ c.toNat ≤ 90 then Char.ofNat (c.toNat + 32) else c

/-- Python `str.strip()`: removes whitespace from both ends. -/
def pyStrip (l : List Char) : List Char :=
  ((l.dropWhile Char.isWhitespace).reverse.dropWhile Char.isWhitespace).reverse

/-- Helper for `pySplit`: walks the characters, accumulating the current word
in reverse; whitespace ends the current word, and empty words are dropped. -/
def pySplitAux : List Char → List Char → List (List Char)
  | [], acc => if acc.isEmpty then [] else [acc.reverse]
  | c :: rest, acc =>
    if c.isWhitespace then
      (if acc.isEmpty then pySplitAux rest [] else acc.reverse :: pySplitAux rest [])
    else pySplitAux rest (c :: acc)

/-- Python `str.split()` with no argument: split on runs of whitespace,
dropping empty pieces. -/
def pySplit (l : List Char) : List (List Char) :=
  pySplitAux l []

/-! ### SeedCodec: the seed-decoding phase of `recover` (cli.py 159-181) -/

/-- The `--seed-type` choice of the `recover` command (cli.py line 160). -/
inductive SeedType
  | hexseed
  | mnemonic
deriving DecidableEq

/-- The failures of the `recover` seed decode. `invalidMnemonicWordCount`
and `invalidSeedLength` are the gracefully reported input-validation paths of
the source, carrying the offending count/length that it prints (cli.py 172,
178). `hexDecodeException` is the invalid-hex-digits exception raised by the
external hex decoder: `recover` has no exception handler, so it propagates
out of the command instead of being reported as a seed-length error. -/
inductive RecoverError
  | invalidMnemonicWordCount (n : ℕ)
  | invalidSeedLength (n : ℕ)
  | hexDecodeException (msg : String)
deriving DecidableEq

/-- A character of the hexadecimal alphabet `0-9`, `a-f`, `A-F`. -/
def isHexDigitChar (c : Char) : Bool :=
  decide ((48 ≤ c.toNat ∧ c.toNat ≤ 57) ∨ (97 ≤ c.toNat ∧ c.toNat ≤ 102) ∨
    (65 ≤ c.toNat ∧ c.toNat ≤ 70))

/-- Value of a hexadecimal digit character (`hstr2bin` validates the input
before this is applied, so the final branch is unreachable on accepted
input). -/
def hexVal (c : Char) : ℕ :=
  if 48 ≤ c.toNat ∧ c.toNat ≤ 57 then c.toNat - 48
  else if 97 ≤ c.toNat ∧ c.toNat ≤ 102 then c.toNat - 87
  else if 65 ≤ c.toNat ∧ c.toNat ≤ 70 then c.toNat - 55
  else 0

/-- Positional decoding of hexadecimal character pairs into byte values. -/
def hexPairs : List Char → List ℕ
  | [] => []
  | [_] => []
  | a :: b :: rest => (16 * hexVal a + hexVal b) :: hexPairs rest

/-- Boundary model of the external library function `pyqrllib.hstr2bin`
(outside this repository): the library validates its input and raises
`invalid_argument` (message `invalid hex digits in the string`) when the
string contains a character outside the hexadecimal alphabet; on valid input
it decodes character pairs into bytes. The raise is modelled as the error
value. -/
def hstr2bin (l : List Char) : Except String (List ℕ) :=
  if l.all isHexDigitChar then .ok (hexPairs l)
  else .error "invalid hex digits in the string"

/-- The seed-decoding phase of the `recover` command, cli.py lines 166-181:
the input is normalized with `seed.lower().strip()` (line 167); in the
mnemonic branch the word count is checked against 32 before the external
`mnemonic2bin` is invoked (lines 169-175); in the hexseed branch only the
character count is checked against 96 before the external `hstr2bin` is
invoked (lines 176-181) — hexadecimal validity is not checked by the
repository code, and an exception raised by `hstr2bin` propagates out of
`recover`, which has no handler (modelled as `hexDecodeException`). The
external mnemonic derivation is a parameter `m2b`, so a returned error in
the mnemonic branch is by construction independent of derivation. -/
def recoverDecodeSeed (m2b : List Char → List ℕ) (seedType : SeedType) (input : List Char) :
    Except RecoverError (List ℕ) :=
  match seedType with
  | .mnemonic =>
    if (pySplit (pyStrip (pyLower input))).length ≠ 32 then
      .error (.invalidMnemonicWordCount (pySplit (pyStrip (pyLower input))).length)
    else
      .ok (m2b (pyStrip (pyLower input)))
  | .hexseed =>
    if (pyStrip (pyLower input)).length ≠ 96 then
      .error (.invalidSeedLength (pyStrip (pyLower input)).length)
    else
      match hstr2bin (pyStrip (pyLower input)) with
      | .ok b => .ok b
      | .error msg => .error (.hexDecodeException msg)

/-! ### Wallet data model and the append phase of `recover` (cli.py 183-195) -/

/-- The XMSS key material held by a wallet entry: the tree public key (bytes)
and the current one-time-signature index, read in `send` via
`selected_wallet.xmss.pk()` and `selected_wallet.xmss.get_index()`
(cli.py 241-242). -/
structure KeyMaterial where
  pk : List ℕ
  otsIndex : ℕ
deriving DecidableEq

/-- One entry of `wallet.address_bundle`: the derived address bytes and the
key material. -/
structure AddressBundle where
  address : List ℕ
  xmss : KeyMaterial
deriving DecidableEq

/-- Outcome of the post-derivation phase of `recover` (cli.py 185-195). -/
inductive RecoverOutcome
  | alreadyInWallet
  | saved
  | notSaved
deriving DecidableEq

/-- `listAddresses` of the spec: the addresses of the bundle in insertion
order (cli.py line 108 builds the same list for display). -/
def listAddresses (bundle : List AddressBundle) : List (List ℕ) :=
  bundle.map (·.address)

/-- The append phase of `recover`, cli.py lines 186-195: the loop over
`walletObj.address_bundle` returns early with the message
`Wallet Address is already in the wallet list` when the recovered address
equals an existing one (186-189); otherwise, on confirmation, the entry is
appended and the wallet saved (191-195). Returns the outcome and the bundle
afterwards. -/
def recoverAppendPhase (bundle : List AddressBundle) (addrBundle : AddressBundle)
    (confirmSave : Bool) : RecoverOutcome × List AddressBundle :=
  if bundle.any (fun addr => addrBundle.address == addr.address) then
    (.alreadyInWallet, bundle)
  else if confirmSave then
    (.saved, bundle ++ [addrBundle])
  else
    (.notSaved, bundle)

/-! ### `select_wallet` (cli.py 112-120) -/

/-- `select_wallet`, cli.py lines 112-120: the prompted wallet number (an
arbitrary Python integer) selects `walletObj.address_bundle[walletnum]` when
`0 <= walletnum < len(walletObj.address_bundle)`, and otherwise prints
`Invalid Wallet Number` and returns `None`. -/
def select_wallet (bundle : List AddressBundle) (walletnum : ℤ) : Option AddressBundle :=
  if h : 0 ≤ walletnum ∧ walletnum < (bundle.length : ℤ) then
    some (bundle.get ⟨walletnum.toNat, by omega⟩)
  else
    none

/-! ### BalanceReader (cli.py 72-94) -/

/-- One remote query with its timeout in seconds, as recorded on the call
sites of `cli.py`. -/
structure RemoteQuery where
  endpoint : String
  timeoutSec : ℕ
deriving DecidableEq

/-- `_public_get_address_balance`, cli.py lines 87-94: issues exactly one
`GetAddressState` call with timeout 5, returning `state.balance`; any failure
propagates to the caller as the error. The node is the oracle parameter
`getAddressState`. Returns the queries issued and the outcome. -/
def public_get_address_balance (getAddressState : List ℕ → Except RpcError ℕ)
    (address : List ℕ) : List RemoteQuery × Except RpcError ℕ :=
  ([⟨"GetAddressState", 5⟩], getAddressState address)

/-- What the balance column of `_print_addresses` shows for one address. -/
inductive BalanceDisplay
  | numericShor (balance : ℕ)
  | unknown
deriving DecidableEq

/-- One iteration of the display loop of `_print_addresses`, cli.py lines
77-84: the balance fetch is wrapped in try/except; on success the numeric
balance is printed (divided by `1e8` for formatting), and on any exception the
line shows `?` instead of a number. -/
def print_addresses_line (getAddressState : List ℕ → Except RpcError ℕ)
    (address : List ℕ) : BalanceDisplay :=
  match (public_get_address_balance getAddressState address).2 with
  | .ok balance => .numericShor balance
  | .error _ => .unknown

/-! ### `_admin_get_local_addresses` and the `mnemonic` command (cli.py 51-58, 198-213) -/

/-- `_admin_get_local_addresses`, cli.py lines 51-58: issues the
`GetLocalAddresses` admin call; the bare `except` catches every exception,
prints `Error connecting to node`, and returns the empty list. The call
outcome is the parameter `resp`. -/
def admin_get_local_addresses (resp : Except RpcError (List (List ℕ))) : List (List ℕ) :=
  match resp with
  | .ok addresses => addresses
  | .error _ => []

/-- Outcome of the `mnemonic` command. -/
inductive MnemonicOutcome
  | walletShown (w : List ℕ × String)
  | indexNotFound
deriving DecidableEq

/-- The `mnemonic` command, cli.py lines 198-213: fetches the local address
list through `_admin_get_local_addresses`, and when
`0 <= wallet_idx < len(addresses)` fetches and shows the wallet info for the
selected address (the `GetWallet` oracle is `getWallet`); otherwise prints
`Wallet index not found`. -/
def mnemonic_command (resp : Except RpcError (List (List ℕ)))
    (getWallet : List ℕ → List ℕ × String) (wallet_idx : ℤ) : MnemonicOutcome :=
  if h : 0 ≤ wallet_idx ∧ wallet_idx < ((admin_get_local_addresses resp).length : ℤ) then
    .walletShown (getWallet ((admin_get_local_addresses resp).get ⟨wallet_idx.toNat, by omega⟩))
  else
    .indexNotFound

/-! ### Amount conversion in `send` (cli.py 232-234) -/

/-- Python `int()` applied to an exact rational: truncation toward zero. -/
def pyInt (q : ℚ) : ℤ :=
  Int.sign q.num * ((q.num.natAbs / q.den : ℕ) : ℤ)

/-- The amount conversion of `send`, cli.py line 233 (line 234 applies the
identical expression to the fee): `amount_shor = int(amount * 10 ** 8)`.
The user-facing quantity is modelled as an exact rational; the conversion
multiplies by the scale factor `10 ^ 8` and truncates with `int()`. It is a
total function: the source has no exactness check and no error path (the
`FIXME: This could be problematic. Check` comment at line 232 flags exactly
this line). -/
def amount_to_shor (amount : ℚ) : ℤ :=
  pyInt (amount * 10 ^ 8)

/-! ### The `send` command at the name-resolution level (cli.py 216-256)

The body of `send` references the name `selected_wallet`, which is never
assigned in the function and is not a module-level name (it occurs only in
the commented-out `eph`/`lattice` command bodies, cli.py 259-308). The model
below replays CPython name resolution over the statements of the try block:
a statement whose expression references a name that is neither a bound local
nor a module-level/builtin name raises `NameError`, which the
`except Exception` handler at line 255 catches. -/

/-- The Python names occurring in `cli.py` that the `send` model consults:
the locals of `send`, the names referenced inside its try block, module-level
imports and definitions, and the builtins it uses. -/
inductive PyName
  | ctx | src | dst | amount | fee
  | channel | stub | address_src | address_dst | amount_shor | fee_shor
  | transferCoinsReq | f | transferCoinsResp | tx | pushTransactionReq | pushTransactionResp
  | selected_wallet
  | click | grpc | mnemonic2binName | hstr2binName | configName | walletClass
  | qrl_pb2_grpc | qrl_pb2 | transactionClass | cliContextClass | qrlGroup | mainFn
  | adminGetLocalAddressesFn | adminGetWalletFn | printAddressesFn
  | publicGetAddressBalanceFn | remotePrintWalletListFn | localPrintWalletListFn
  | selectWalletFn | walletsCmd | generateCmd | recoverCmd | mnemonicCmd | sendCmd
  | printBuiltin | strBuiltin | intBuiltin | lenBuiltin | enumerateBuiltin
deriving DecidableEq

/-- One Python statement at the name-resolution level: the names its
expressions read, the local names it binds on success, and the observable
effects (remote calls, signing) it performs when it executes. -/
structure PyStmt where
  uses : List PyName
  binds : List PyName
  effects : List String
deriving DecidableEq

/-- The module-level names of `cli.py`: the imports of lines 1-10 and the
classes/functions/commands defined at lines 13-316. `selected_wallet` is not
among them. -/
def moduleGlobals : List PyName :=
  [.click, .grpc, .mnemonic2binName, .hstr2binName, .configName, .walletClass,
   .qrl_pb2_grpc, .qrl_pb2, .transactionClass, .cliContextClass, .qrlGroup, .mainFn,
   .adminGetLocalAddressesFn, .adminGetWalletFn, .printAddressesFn,
   .publicGetAddressBalanceFn, .remotePrintWalletListFn, .localPrintWalletListFn,
   .selectWalletFn, .walletsCmd, .generateCmd, .recoverCmd, .mnemonicCmd, .sendCmd,
   .printBuiltin, .strBuiltin, .intBuiltin, .lenBuiltin, .enumerateBuiltin]

/-- The local names of `send` bound before its try block: the five parameters
(line 222) and the assignments of lines 226-234, all of which succeed for
every input (`grpc.insecure_channel` creates a channel lazily without any
remote call, and `int(amount * 10 ** 8)` is total on the click-parsed
integer). -/
def sendLocalsBeforeTry : List PyName :=
  [.ctx, .src, .dst, .amount, .fee, .channel, .stub,
   .address_src, .address_dst, .amount_shor, .fee_shor]

/-- The statements of the `send` try block, cli.py lines 236-254, in order:
the `TransferCoinsReq` construction whose keyword arguments reference
`address_src`, `address_dst`, `amount_shor`, `fee_shor` and (twice)
`selected_wallet` (237-242); the `TransferCoins` future creation, which
issues the remote call (244), and its result retrieval (245);
`Transaction.from_pbdata` (247); `tx.sign(selected_wallet.xmss)` (248);
the `PushTransactionReq` construction (249); the `PushTransaction` future
creation and result retrieval (251-252); and the response print (254). -/
def sendTryBlock : List PyStmt :=
  [⟨[.qrl_pb2, .address_src, .address_dst, .amount_shor, .fee_shor,
     .selected_wallet, .selected_wallet], [.transferCoinsReq], []⟩,
   ⟨[.stub, .transferCoinsReq], [.f], ["rpc TransferCoins"]⟩,
   ⟨[.f], [.transferCoinsResp], []⟩,
   ⟨[.transactionClass, .transferCoinsResp], [.tx], []⟩,
   ⟨[.tx, .selected_wallet], [], ["sign"]⟩,
   ⟨[.qrl_pb2, .tx], [.pushTransactionReq], []⟩,
   ⟨[.stub, .pushTransactionReq], [.f], ["rpc PushTransaction"]⟩,
   ⟨[.f], [.pushTransactionResp], []⟩,
   ⟨[.printBuiltin, .pushTransactionResp], [], []⟩]

/-- CPython name lookup failure: the name is neither a bound local nor a
module-level/builtin name. -/
def lookupFails (env : List PyName) (n : PyName) : Bool :=
  !(decide (n ∈ env) || decide (n ∈ moduleGlobals))

/-- How a Python block finished: ran to completion, or raised `NameError` on
the given name. -/
inductive PyFlow
  | completed
  | nameErrorRaised (n : PyName)
deriving DecidableEq

/-- Executes a block of statements under an environment of bound locals:
a statement referencing an unbound name raises `NameError` before performing
its effects; otherwise its effects occur and its bindings extend the
environment. Returns the effects performed and how the block finished. -/
def runBlock : List PyStmt → List PyName → List String × PyFlow
  | [], _ => ([], .completed)
  | st :: rest, env =>
    match st.uses.find? (lookupFails env) with
    | some n => ([], .nameErrorRaised n)
    | none =>
      let r := runBlock rest (env ++ st.binds)
      (st.effects ++ r.1, r.2)

/-- A Python exception surfaced by the `send` flow. -/
inductive PyExn
  | nameError (n : PyName)
  | rpcFailure (e : RpcError)
deriving DecidableEq

/-- What the `send` command printed on exit: the error branch of lines
255-256 (`print("Error {}".format(str(e)))`) or the response print of
line 254. -/
inductive SendResult
  | errorPrinted (e : PyExn)
  | responsePrinted (resp : String)
deriving DecidableEq

/-- The `send` command, cli.py lines 222-256, at the name-resolution level:
the pre-try assignments bind `sendLocalsBeforeTry` for every input, then the
try block runs; `except Exception as e` catches whatever it raises and prints
the error. The four user inputs do not influence name resolution. -/
def send_command (src dst : String) (amount fee : ℤ) : SendResult × List String :=
  match runBlock sendTryBlock sendLocalsBeforeTry with
  | (effects, .nameErrorRaised n) => (.errorPrinted (.nameError n), effects)
  | (effects, .completed) => (.responsePrinted "", effects)

/-! ### The `send` submission flow with the wallet entry bound (cli.py 236-256)

The flow that claims about signing and submission describe is the try block
of `send` with the unbound name `selected_wallet` bound to a wallet entry,
exactly as in the commented-out `eph`/`lattice` bodies (cli.py 266, 281)
whose submission code is line-for-line the same as the `send` try block.
As written, `send` never reaches this flow (see the name-resolution model
above). -/

/-- The `TransferCoinsReq` message built at cli.py 237-242. -/
structure TransferCoinsReq where
  address_from : List ℕ
  address_to : List ℕ
  amount : ℕ
  fee : ℕ
  xmss_pk : List ℕ
  xmss_ots_index : ℕ
deriving DecidableEq

/-- The node-issued unsigned transaction template
(`transferCoinsResp.transaction_unsigned`), including the OTS index the node
embedded in it. -/
structure UnsignedTx where
  address_from : List ℕ
  address_to : List ℕ
  amount : ℕ
  fee : ℕ
  xmss_pk : List ℕ
  ots_index : ℕ
deriving DecidableEq

/-- A signed transaction: the template plus the OTS slot that the signature
consumed. -/
structure SignedTx where
  tx : UnsignedTx
  signatureIndex : ℕ
deriving DecidableEq

/-- Observable events of the submission flow. `otsIndexPersisted` is the
wallet-store persistence hook of the spec (section 6); it is part of the
event vocabulary so that its absence from a trace can be stated, and no
statement of the transcribed flow emits it, because the `send` flow contains
no wallet-store call (cli.py 236-256 neither constructs nor references any
wallet object or file). -/
inductive FlowEvent
  | remoteCall (endpoint : String)
  | otsSigned (consumedIndex : ℕ)
  | otsIndexPersisted (newIndex : ℕ)
deriving DecidableEq

/-- The remote node as seen by the submission flow: its responses to the two
public-API calls the flow issues. -/
structure NodeBehavior where
  transferCoins : TransferCoinsReq → Except RpcError UnsignedTx
  pushTransaction : SignedTx → Except RpcError String

/-- Modelled from the spec: `Transaction.sign` together with the XMSS signing
step (`qrl.core.Transaction` and `pyqrllib`, outside `src/`). Producing the
one-time signature consumes the key material at its current OTS index and
advances the index past the consumed value (spec section 4.5, Effect clause).
Per spec section 9, the observed submission flow performs no local
persistence of the advanced index — the atomic persist of section 4.5 is
stated there as a corrected requirement, not observed behavior — so signing
advances only the in-memory index and emits no persistence event. -/
def transaction_sign (tx : UnsignedTx) (km : KeyMaterial) : SignedTx × KeyMaterial :=
  (⟨tx, km.otsIndex⟩, { km with otsIndex := km.otsIndex + 1 })

/-- The submission flow of cli.py lines 236-256 with `selected_wallet` bound:
build the `TransferCoinsReq` from the current public key and OTS index
(237-242); issue `TransferCoins` (244-245); on success, sign the returned
template with `tx.sign(selected_wallet.xmss)` (247-248) — the source performs
no comparison of the embedded `ots_index` against the requested one and has no
abort branch between the response and the signing — then issue
`PushTransaction` (249-252) and print the response (254); every raised
exception is printed by the handler at 255-256. Returns the printed outcome,
the key material afterwards, and the trace of events. -/
def send_flow (node : NodeBehavior) (selected_wallet : AddressBundle)
    (address_src address_dst : List ℕ) (amount_shor fee_shor : ℕ) :
    SendResult × KeyMaterial × List FlowEvent :=
  let km := selected_wallet.xmss
  match node.transferCoins ⟨address_src, address_dst, amount_shor, fee_shor, km.pk, km.otsIndex⟩ with
  | .error e => (.errorPrinted (.rpcFailure e), km, [.remoteCall "TransferCoins"])
  | .ok utx =>
    let signed := transaction_sign utx km
    match node.pushTransaction signed.1 with
    | .error e =>
      (.errorPrinted (.rpcFailure e), signed.2,
       [.remoteCall "TransferCoins", .otsSigned km.otsIndex, .remoteCall "PushTransaction"])
    | .ok resp =>
      (.responsePrinted resp, signed.2,
       [.remoteCall "TransferCoins", .otsSigned km.otsIndex, .remoteCall "PushTransaction"])

/-! ### Concrete inputs used to evaluate the models -/

/-- Key material at OTS index 0 with public key bytes `[7]`. -/
def kmExample : KeyMaterial := ⟨[7], 0⟩

/-- A wallet entry with address bytes `[1, 2]` holding `kmExample`. -/
def walletExample : AddressBundle := ⟨[1, 2], kmExample⟩

/-- A single-entry wallet containing `walletExample`. -/
def bundleExample : List AddressBundle := [walletExample]

/-- A node that echoes every `TransferCoinsReq` back as an unsigned template
with the same fields (embedded OTS index equal to the requested one) and
accepts every push with response `"txid"`. -/
def nodeOk : NodeBehavior :=
  ⟨fun req => .ok ⟨req.address_from, req.address_to, req.amount, req.fee,
      req.xmss_pk, req.xmss_ots_index⟩,
   fun _ => .ok "txid"⟩

/-- A node that answers every `TransferCoinsReq` with a template whose
embedded OTS index is 5, regardless of the requested index, and accepts every
push with response `"txid"`. -/
def nodeMismatch : NodeBehavior :=
  ⟨fun req => .ok ⟨req.address_from, req.address_to, req.amount, req.fee,
      req.xmss_pk, 5⟩,
   fun _ => .ok "txid"⟩

/-- A mnemonic input of 31 whitespace-separated words. -/
def thirtyOneWords : List Char :=
  List.intercalate [' '] (List.replicate 31 ['w'])

/-- A 96-character input consisting entirely of the non-hexadecimal
character `z`. -/
def zInput : List Char := List.replicate 96 'z'

/-- A 96-character input consisting entirely of the hexadecimal character
`a`. -/
def aInput : List Char := List.replicate 96 'a'

/-- A 2-character hexseed input. -/
def shortSeedInput : List Char := ['a', 'b']

/-- A trivial stand-in for the external mnemonic derivation, used where a
theorem is instantiated at concrete inputs. -/
def m2bTrivial : List Char → List ℕ := fun _ => []

/-- A balance oracle that times out for every address. -/
def gasTimeout : List ℕ → Except RpcError ℕ := fun _ => .error .timeout

/-- A balance oracle that answers 7 shor for every address. -/
def gasOk : List ℕ → Except RpcError ℕ := fun _ => .ok 7

/-! ### Helper lemmas -/

/-- `hexPairs` produces one byte per pair of input characters. -/
theorem hexPairs_length : ∀ (l : List Char), (hexPairs l).length = l.length / 2
  | [] => rfl
  | [_] => by simp [hexPairs]
  | _ :: _ :: rest => by
    simp only [hexPairs, List.length_cons]
    rw [hexPairs_length rest]
    omega

/-- On a nonnegative rational, Python `int()` truncation agrees with the
floor. -/
theorem pyInt_of_nonneg (q : ℚ) (h : 0 ≤ q) : pyInt q = ⌊q⌋ := by
  rcases eq_or_lt_of_le h with h0 | hpos
  · rw [← h0]
    simp [pyInt]
  · have hnum : 0 < q.num := Rat.num_pos.mpr hpos
    rw [pyInt, Int.sign_eq_one_of_pos hnum, one_mul, Rat.floor_def]
    rw [Int.ofNat_ediv]
    rw [Int.natAbs_of_nonneg hnum.le]

/-! ### Claim theorems -/

/-- C1: the claim states that every successful sign operation advances the
OTS index past the consumed value and persists it to the owning store as an
atomic step before sign returns, with persistence before or atomically with
the push. Evaluating the submission flow at a concrete input on which signing
and pushing both succeed: the flow signs at index 0, pushes, and returns with
the key material advanced only in memory, and no persistence event occurs
anywhere in the trace — the transcribed source contains no wallet-store call.
This contradicts the claim (the spec itself records the divergence in its
section 9 and labels the persistence requirement a correction of the observed
flow). -/
theorem C1_sign_without_persistence :
    send_flow nodeOk walletExample [1, 2] [3, 4] 100 10 =
      (.responsePrinted "txid", ⟨[7], 1⟩,
       [.remoteCall "TransferCoins", .otsSigned 0, .remoteCall "PushTransaction"]) ∧
    ∀ j, FlowEvent.otsIndexPersisted j ∉
      (send_flow nodeOk walletExample [1, 2] [3, 4] 100 10).2.2 := by
  refine ⟨rfl, ?_⟩
  intro j
  simp [send_flow, nodeOk, walletExample, kmExample, transaction_sign]

/-- C2: the claim states that a template whose embedded OTS index differs
from the declared `senderOtsIndex` makes the caller fail with
`ProtocolViolation` and abort without signing, leaving the OTS index
unchanged. Evaluating the submission flow against a node that embeds index 5
while the key material is at index 0: the request declared index 0, the
returned template embeds 5, yet the flow signs (consuming slot 0), pushes,
prints the node response, and the key material ends at index 1 — the source
has no mismatch check and no abort branch. -/
theorem C2_mismatch_signed_anyway :
    nodeMismatch.transferCoins ⟨[1, 2], [3, 4], 100, 10, [7], 0⟩ =
      .ok ⟨[1, 2], [3, 4], 100, 10, [7], 5⟩ ∧
    walletExample.xmss.otsIndex = 0 ∧
    send_flow nodeMismatch walletExample [1, 2] [3, 4] 100 10 =
      (.responsePrinted "txid", ⟨[7], 1⟩,
       [.remoteCall "TransferCoins", .otsSigned 0, .remoteCall "PushTransaction"]) :=
  ⟨rfl, rfl, rfl⟩

/-- C3: the claim states that a decimal amount finer than the scale factor
`10 ^ 8` fails with `AmountPrecisionError`, and that `1.00000001` converts to
`100000001`. The conversion of cli.py line 233 is `int(amount * 10 ** 8)`, a
total function with no error path: at `1.000000001` it silently truncates to
`100000000` instead of failing; the exact multiple `1.00000001` does map to
`100000001`. -/
theorem C3_amount_silently_truncated :
    amount_to_shor (1000000001 / 1000000000) = 100000000 ∧
    amount_to_shor (100000001 / 100000000) = 100000001 := by
  constructor
  · rw [amount_to_shor, pyInt_of_nonneg _ (by norm_num), Int.floor_eq_iff]
    constructor <;> norm_num
  · rw [amount_to_shor, pyInt_of_nonneg _ (by norm_num), Int.floor_eq_iff]
    constructor <;> norm_num

/-- C4: a mnemonic input whose whitespace-separated word count is not 32
makes the recover decode fail with `InvalidMnemonicWordCount` carrying that
count; the result is an error for every derivation function `m2b`, so no
derivation is attempted. -/
theorem C4_word_count_gate (m2b : List Char → List ℕ) (input : List Char)
    (h : (pySplit (pyStrip (pyLower input))).length ≠ 32) :
    recoverDecodeSeed m2b .mnemonic input =
      .error (.invalidMnemonicWordCount (pySplit (pyStrip (pyLower input))).length) := by
  simp only [recoverDecodeSeed]
  rw [if_pos h]

/-- C4 witness: a 31-word mnemonic input fails with
`InvalidMnemonicWordCount 31`. -/
theorem C4_word_count_gate_app :
    recoverDecodeSeed m2bTrivial .mnemonic thirtyOneWords =
      .error (.invalidMnemonicWordCount 31) :=
  C4_word_count_gate m2bTrivial thirtyOneWords (by decide)

/-- C5 counterexample: the claim states that the hexseed decode fails with
`InvalidSeedLength` for every input that is not 96 hexadecimal characters.
The 96-character all-`z` input contains no hexadecimal digit, yet it passes
the length gate — the only `InvalidSeedLength` check the source has
(cli.py 177-181) — and the failure it then meets is the external decoder's
invalid-hex-digits exception, which `recover` does not catch; the outcome is
not an `InvalidSeedLength` error. -/
theorem C5_nonhex_uncaught_exception :
    zInput.length = 96 ∧
    (zInput.all isHexDigitChar) = false ∧
    recoverDecodeSeed m2bTrivial .hexseed zInput =
      .error (.hexDecodeException "invalid hex digits in the string") := by
  refine ⟨by decide, by decide, ?_⟩
  rfl

/-- C5 amended: the hexseed branch of recover fails with `InvalidSeedLength`
(carrying the actual length) exactly when the normalized input length is not
96 — no truncation or padding; a 96-character input is passed to the external
hex decoder, which returns the 48-byte seed when every character is
hexadecimal and otherwise raises its invalid-hex-digits exception, which
`recover` does not catch — the failure in that case is not
`InvalidSeedLength`. -/
theorem C5_length_gate_then_decoder (m2b : List Char → List ℕ) (input : List Char) :
    ((pyStrip (pyLower input)).length ≠ 96 →
      recoverDecodeSeed m2b .hexseed input =
        .error (.invalidSeedLength (pyStrip (pyLower input)).length)) ∧
    ((pyStrip (pyLower input)).length = 96 →
      (((pyStrip (pyLower input)).all isHexDigitChar) = true →
        recoverDecodeSeed m2b .hexseed input = .ok (hexPairs (pyStrip (pyLower input))) ∧
        (hexPairs (pyStrip (pyLower input))).length = 48) ∧
      (((pyStrip (pyLower input)).all isHexDigitChar) = false →
        recoverDecodeSeed m2b .hexseed input =
          .error (.hexDecodeException "invalid hex digits in the string"))) := by
  constructor
  · intro h
    simp only [recoverDecodeSeed]
    rw [if_pos h]
  · intro h
    constructor
    · intro hall
      refine ⟨?_, ?_⟩
      · simp only [recoverDecodeSeed, hstr2bin]
        rw [if_neg (by omega), hall]
        simp
      · rw [hexPairs_length, h]
    · intro hall
      simp only [recoverDecodeSeed, hstr2bin]
      rw [if_neg (by omega), hall]
      simp

/-- C5 witness: a 2-character input fails with `InvalidSeedLength 2`; the
96-character all-`a` input decodes to 48 bytes; and the 96-character all-`z`
input fails with the uncaught decoder exception rather than
`InvalidSeedLength`. -/
theorem C5_length_gate_then_decoder_app :
    recoverDecodeSeed m2bTrivial .hexseed shortSeedInput =
      .error (.invalidSeedLength 2) ∧
    (recoverDecodeSeed m2bTrivial .hexseed aInput =
      .ok (hexPairs (pyStrip (pyLower aInput))) ∧
     (hexPairs (pyStrip (pyLower aInput))).length = 48) ∧
    recoverDecodeSeed m2bTrivial .hexseed zInput =
      .error (.hexDecodeException "invalid hex digits in the string") :=
  ⟨(C5_length_gate_then_decoder m2bTrivial shortSeedInput).1 (by decide),
   ((C5_length_gate_then_decoder m2bTrivial aInput).2 (by decide)).1 (by decide),
   ((C5_length_gate_then_decoder m2bTrivial zInput).2 (by decide)).2 (by decide)⟩

/-- C6: appending a recovered entry whose address already occurs in the
bundle reports `alreadyInWallet` (the duplicate message of cli.py 188) and
leaves the bundle — hence `listAddresses` — unchanged, for either answer to
the save prompt. -/
theorem C6_duplicate_rejected (bundle : List AddressBundle) (addrBundle : AddressBundle)
    (confirmSave : Bool) (h : addrBundle.address ∈ listAddresses bundle) :
    recoverAppendPhase bundle addrBundle confirmSave = (.alreadyInWallet, bundle) ∧
    listAddresses (recoverAppendPhase bundle addrBundle confirmSave).2 =
      listAddresses bundle := by
  have hb : bundle.any (fun addr => addrBundle.address == addr.address) = true := by
    rw [List.any_eq_true]
    simp only [listAddresses, List.mem_map] at h
    obtain ⟨a, ha, hEq⟩ := h
    exact ⟨a, ha, by simp [hEq]⟩
  constructor
  · simp [recoverAppendPhase, hb]
  · simp [recoverAppendPhase, hb]

/-- C6 witness: re-appending the entry whose address `[1, 2]` is already in
the single-entry bundle reports the duplicate and leaves the bundle
unchanged. -/
theorem C6_duplicate_rejected_app :
    recoverAppendPhase bundleExample ⟨[1, 2], ⟨[9], 0⟩⟩ true =
      (.alreadyInWallet, bundleExample) ∧
    listAddresses (recoverAppendPhase bundleExample ⟨[1, 2], ⟨[9], 0⟩⟩ true).2 =
      listAddresses bundleExample :=
  C6_duplicate_rejected bundleExample ⟨[1, 2], ⟨[9], 0⟩⟩ true (by decide)

/-- C7: `select_wallet` returns an entry exactly when the requested integer
index lies in `[0, len)`, and returns `None` (after printing
`Invalid Wallet Number`) for every index outside that range. -/
theorem C7_index_gate (bundle : List AddressBundle) (walletnum : ℤ) :
    ((∃ e, select_wallet bundle walletnum = some e) ↔
      (0 ≤ walletnum ∧ walletnum < (bundle.length : ℤ))) ∧
    (¬(0 ≤ walletnum ∧ walletnum < (bundle.length : ℤ)) →
      select_wallet bundle walletnum = none) := by
  constructor
  · constructor
    · rintro ⟨e, he⟩
      by_cases hc : 0 ≤ walletnum ∧ walletnum < (bundle.length : ℤ)
      · exact hc
      · rw [select_wallet, dif_neg hc] at he
        cases he
    · intro h
      rw [select_wallet, dif_pos h]
      exact ⟨_, rfl⟩
  · intro h
    rw [select_wallet, dif_neg h]

/-- C7 witness: index 5 on a single-entry bundle yields no entry. -/
theorem C7_index_gate_app : select_wallet bundleExample 5 = none :=
  (C7_index_gate bundleExample 5).2 (by decide)

/-- C8: the balance fetch issues exactly one `GetAddressState` query bounded
by timeout 5; on any error the display shows `unknown` (`?`) rather than a
number, and on success it shows the numeric balance, which is never the
`unknown` display — so a failed query is distinguishable from a zero
balance. -/
theorem C8_error_displays_unknown (getAddressState : List ℕ → Except RpcError ℕ)
    (address : List ℕ) :
    (public_get_address_balance getAddressState address).1 = [⟨"GetAddressState", 5⟩] ∧
    (∀ e, getAddressState address = .error e →
      print_addresses_line getAddressState address = .unknown) ∧
    (∀ b, getAddressState address = .ok b →
      print_addresses_line getAddressState address = .numericShor b ∧
      BalanceDisplay.numericShor b ≠ .unknown) := by
  refine ⟨rfl, ?_, ?_⟩
  · intro e he
    simp [print_addresses_line, public_get_address_balance, he]
  · intro b hb
    exact ⟨by simp [print_addresses_line, public_get_address_balance, hb], by simp⟩

/-- C8 witness: a timed-out oracle displays `unknown`, and an oracle
answering 7 displays the numeric balance 7. -/
theorem C8_error_displays_unknown_app :
    print_addresses_line gasTimeout [1] = .unknown ∧
    print_addresses_line gasOk [1] = .numericShor 7 :=
  ⟨(C8_error_displays_unknown gasTimeout [1]).2.1 .timeout rfl,
   ((C8_error_displays_unknown gasOk [1]).2.2 7 rfl).1⟩

/-- C9: for every invocation of `send`, evaluating the `TransferCoinsReq`
construction raises `NameError` on the unbound name `selected_wallet` inside
the try block, before any remote call, signing, or push; the handler prints
the error. The model returns the error print and an empty effect trace for
all inputs. -/
theorem C9_send_unbound_name (src dst : String) (amount fee : ℤ) :
    send_command src dst amount fee =
      (.errorPrinted (.nameError .selected_wallet), []) := rfl

/-- C10: when the `GetLocalAddresses` admin call fails for any reason, the
helper returns the empty list, which is the same value it returns for a node
whose wallet is empty; consequently the `mnemonic` command answers
`indexNotFound` for every index in both situations — callers cannot
distinguish an unreachable node from an empty wallet. -/
theorem C10_error_equals_empty (e : RpcError)
    (getWallet : List ℕ → List ℕ × String) (wallet_idx : ℤ) :
    admin_get_local_addresses (.error e) = admin_get_local_addresses (.ok []) ∧
    mnemonic_command (.error e) getWallet wallet_idx = .indexNotFound ∧
    mnemonic_command (.ok []) getWallet wallet_idx = .indexNotFound := by
  refine ⟨rfl, ?_, ?_⟩
  · rw [mnemonic_command, dif_neg]
    rintro ⟨h0, hlt⟩
    simp [admin_get_local_addresses] at hlt
    omega
  · rw [mnemonic_command, dif_neg]
    rintro ⟨h0, hlt⟩
    simp [admin_get_local_addresses] at hlt
    omega

end QrlCli
